import Mathlib

/-!
Shallow embedding of `src/page-refresh/page-refresh.js` (class `PageRefresh`).

Modelling conventions:
* A JS number that may be `NaN` is `JSNum := Option Int` (`none` = NaN).
  `parseInt` always returns an integer or NaN, so `Int` suffices.
* A JS value that is either a string or `null` (the return type of
  `URLSearchParams.get`) is `JSVal := Option String` (`none` = null).
* The ambient clock is passed explicitly: `dayStart` is the timestamp (in
  milliseconds) of local midnight of the current day and `now` the current
  timestamp, with `dayStart ≤ now < dayStart + 86400000` where it matters.
  `Date.setHours h m 0 0` on a date of the current day becomes
  `dayStart + h*3600000 + m*60000` (on an Invalid Date it stays invalid),
  and `setDate (getDate () + 1)` adds one uniform day (86400000 ms).
* `setTimeout` is modelled by recording the requested delay in the handle
  field: `refreshEveryTimeout / refreshAtTimeout : Option JSNum`, `none` for
  the cleared/null handle, `some d` for an armed timer with requested delay
  `d` (itself NaN-capable).  The callback of every timer in the source is
  exactly `window.location.reload`, so the delay is the whole observable.
* The only operation in the module that can throw is the method call
  `refreshAt.toString()` (a TypeError when the receiver is `null`), hence
  `setupRefreshAt` and `init` live in `Except String`.
* `getQueryParam` wraps `URLSearchParams`; URL parsing is outside the model,
  so `init` receives the two query values directly as `JSVal`.
-/

/-- A JS number that may be NaN: `none` is NaN. -/
abbrev JSNum := Option Int

/-- A JS string-or-null value: `none` is `null`. -/
abbrev JSVal := Option String

/-- JS truthiness of a string-or-null value: `null` and `""` are falsy. -/
def jsTruthy : JSVal → Bool
  | none => false
  | some s => !s.isEmpty

/-- JS `ToString` coercion as applied by `parseInt` to its argument. -/
def jsToStringNum : JSVal → String
  | none => "null"
  | some s => s

/-- The method call `v.toString()`: throws a TypeError when `v` is `null`,
returns the string itself otherwise. -/
def jsMethodToString : JSVal → Except String String
  | none => Except.error "TypeError: cannot read toString of null"
  | some s => Except.ok s

/-- JS whitespace accepted (and skipped) at the front by `parseInt`. -/
def isJsWhitespace (c : Char) : Bool :=
  c = ' ' || c = '\t' || c = '\n' || c = '\r' ||
  c = (Char.ofNat 11) || c = (Char.ofNat 12) || c = (Char.ofNat 0xa0) ||
  c = (Char.ofNat 0x1680) ||
  (Char.ofNat 0x2000 ≤ c && c ≤ Char.ofNat 0x200a) ||
  c = (Char.ofNat 0x2028) || c = (Char.ofNat 0x2029) ||
  c = (Char.ofNat 0x202f) || c = (Char.ofNat 0x205f) ||
  c = (Char.ofNat 0x3000) || c = (Char.ofNat 0xfeff)

/-- Value of a character as a digit in the given radix, if it is one. -/
def digitInRadix (radix : Nat) (c : Char) : Option Nat :=
  let v : Option Nat :=
    if '0' ≤ c && c ≤ '9' then some (c.toNat - 48)
    else if 'a' ≤ c && c ≤ 'z' then some (c.toNat - 97 + 10)
    else if 'A' ≤ c && c ≤ 'Z' then some (c.toNat - 65 + 10)
    else none
  match v with
  | some d => if d < radix then some d else none
  | none => none

/-- Longest prefix of digit values in the given radix. -/
def takeDigits (radix : Nat) : List Char → List Nat
  | [] => []
  | c :: cs =>
    match digitInRadix radix c with
    | some d => d :: takeDigits radix cs
    | none => []

/-- JS `parseInt(s)` (radix argument omitted): skip leading whitespace, read
an optional sign, detect a `0x`/`0X` hex marker, then take the longest run of
digits; NaN (`none`) when that run is empty.  (Numbers are modelled as exact
integers rather than IEEE doubles.) -/
def parseIntJS (s : String) : JSNum :=
  let cs := s.data.dropWhile isJsWhitespace
  let signAndRest : Int × List Char :=
    match cs with
    | '-' :: rest => (-1, rest)
    | '+' :: rest => (1, rest)
    | _ => (1, cs)
  let radixAndRest : Nat × List Char :=
    match signAndRest.2 with
    | '0' :: 'x' :: rest => (16, rest)
    | '0' :: 'X' :: rest => (16, rest)
    | _ => (10, signAndRest.2)
  let ds := takeDigits radixAndRest.1 radixAndRest.2
  if ds.isEmpty then none
  else some (signAndRest.1 * (ds.foldl (fun acc d => acc * (radixAndRest.1 : Int) + (d : Int)) 0))

/-- JS `s.substring(a, b)` for `a ≤ b` within bounds. -/
def jsSubstring (s : String) (a b : Nat) : String :=
  String.mk ((s.data.drop a).take (b - a))

/-- JS `<` against an integer constant: false when the left side is NaN. -/
def jsLtInt (x : JSNum) (b : Int) : Bool :=
  match x with
  | some v => decide (v < b)
  | none => false

/-- JS `>=` against an integer constant: false when the left side is NaN. -/
def jsGeInt (x : JSNum) (b : Int) : Bool :=
  match x with
  | some v => decide (b ≤ v)
  | none => false

/-- JS `<=` between two NaN-capable numbers (Date comparison goes through
`valueOf`): false whenever either side is NaN. -/
def jsLe (x y : JSNum) : Bool :=
  match x, y with
  | some a, some b => decide (a ≤ b)
  | _, _ => false

/-- NaN-propagating addition. -/
def jsAdd (x y : JSNum) : JSNum :=
  match x, y with
  | some a, some b => some (a + b)
  | _, _ => none

/-- NaN-propagating subtraction (`Date - Date` is NaN on an Invalid Date). -/
def jsSub (x y : JSNum) : JSNum :=
  match x, y with
  | some a, some b => some (a - b)
  | _, _ => none

/-- `targetTime.setHours(hours, minutes, 0, 0)` on a `Date` of the current
day: an Invalid Date (NaN timestamp) when either argument is NaN. -/
def jsSetHours (dayStart : Int) (h m : JSNum) : JSNum :=
  match h, m with
  | some hv, some mv => some (dayStart + hv * 3600000 + mv * 60000)
  | _, _ => none

/-- JS `Number.prototype.toString` (`NaN` prints as `"NaN"`). -/
def jsNumToString : JSNum → String
  | none => "NaN"
  | some v => toString v

/-- JS `s.padStart(2, '0')`. -/
def padStart2 (s : String) : String :=
  if s.length < 2 then String.mk (List.replicate (2 - s.length) '0' ++ s.data) else s

/-- The `config.refreshAt` record `{ hours, minutes, targetTime }`. -/
structure RefreshAtInfo where
  hours : JSNum
  minutes : JSNum
  targetTime : JSNum
deriving DecidableEq, Repr

/-- The `config` object of the `PageRefresh` class. -/
structure Config where
  refreshEvery : Option Int
  refreshAt : Option RefreshAtInfo
  statusMessages : List String
deriving DecidableEq, Repr

/-- The full mutable state of a `PageRefresh` instance. -/
structure PageRefresh where
  refreshEveryTimeout : Option JSNum
  refreshAtTimeout : Option JSNum
  config : Config
deriving DecidableEq, Repr

/-- The constructor `new PageRefresh()`. -/
def newPageRefresh : PageRefresh :=
  { refreshEveryTimeout := none
    refreshAtTimeout := none
    config := { refreshEvery := none, refreshAt := none, statusMessages := [] } }

/-- `this.config.statusMessages.push(m)`. -/
def pushMsg (self : PageRefresh) (m : String) : PageRefresh :=
  { self with config :=
      { self.config with statusMessages := self.config.statusMessages ++ [m] } }

/-- The literal status message for an invalid `refresh_every` value. -/
def invalidEveryMsg : String :=
  "Invalid refresh_every parameter (must be a positive number)"

/-- The confirmation message pushed by `setupRefreshEvery`. -/
def confirmEveryMsg (seconds : Int) : String :=
  "Auto-refresh enabled: Page will refresh every " ++ toString seconds ++ " seconds"

/-- The literal status message for an invalid `refresh_at` value. -/
def invalidAtMsg : String :=
  "Invalid refresh_at parameter (format should be hhmm, e.g., 1430 for 2:30 PM)"

/-- The confirmation message pushed by `setupRefreshAt`. -/
def confirmAtMsg (hours minutes : JSNum) : String :=
  "Auto-refresh enabled: Page will refresh at " ++
    padStart2 (jsNumToString hours) ++ ":" ++ padStart2 (jsNumToString minutes) ++ ":00"

/-- The informational message pushed by `init` when neither parameter is set. -/
def noRefreshMsg : String :=
  "No refresh parameters detected - page will not auto-refresh"

/-- `setupRefreshEvery(refreshEvery)` from the source, lines 37-52: parse the
value as an integer, reject NaN and non-positive results with a status
message, otherwise store the value, push a confirmation and arm a one-shot
timer with delay `seconds * 1000` ms. -/
def setupRefreshEvery (self : PageRefresh) (refreshEvery : JSVal) : PageRefresh × Bool :=
  match parseIntJS (jsToStringNum refreshEvery) with
  | none => (pushMsg self invalidEveryMsg, false)
  | some seconds =>
    if seconds ≤ 0 then (pushMsg self invalidEveryMsg, false)
    else
      let self := { self with config := { self.config with refreshEvery := some seconds } }
      let self := pushMsg self (confirmEveryMsg seconds)
      let self := { self with refreshEveryTimeout := some (some (seconds * 1000)) }
      (self, true)

/-- `setupRefreshAt(refreshAt)` from the source, lines 59-95: require a
4-character string, parse the two halves with `parseInt`, range-check them
with `<`/`>=` (false on NaN, exactly as in JS), build the target `Date`,
roll it to the next day when `targetTime <= now`, store the triple, push a
confirmation and arm a one-shot timer with delay `targetTime - now` ms. -/
def setupRefreshAt (self : PageRefresh) (dayStart now : Int) (refreshAt : JSVal) :
    Except String (PageRefresh × Bool) :=
  match jsMethodToString refreshAt with
  | Except.error e => Except.error e
  | Except.ok timeStr =>
    if timeStr.length ≠ 4 then
      Except.ok (pushMsg self invalidAtMsg, false)
    else
      let hours := parseIntJS (jsSubstring timeStr 0 2)
      let minutes := parseIntJS (jsSubstring timeStr 2 4)
      if jsLtInt hours 0 || jsGeInt hours 24 || jsLtInt minutes 0 || jsGeInt minutes 60 then
        Except.ok (pushMsg self invalidAtMsg, false)
      else
        let targetTime0 := jsSetHours dayStart hours minutes
        let targetTime :=
          if jsLe targetTime0 (some now) then jsAdd targetTime0 (some 86400000) else targetTime0
        let timeUntilRefresh := jsSub targetTime (some now)
        let self := { self with config :=
          { self.config with refreshAt := some ⟨hours, minutes, targetTime⟩ } }
        let self := pushMsg self (confirmAtMsg hours minutes)
        let self := { self with refreshAtTimeout := some timeUntilRefresh }
        Except.ok (self, true)

/-- `init()` from the source, lines 101-118: read the two query parameters,
run each setup under a JS truthiness guard, and push the "no auto-refresh"
message when both values are falsy.  The source returns `this.config`; the
model returns the whole instance, with `getConfig` as the projection. -/
def init (self : PageRefresh) (qe qa : JSVal) (dayStart now : Int) :
    Except String PageRefresh :=
  let self1 := if jsTruthy qe then (setupRefreshEvery self qe).1 else self
  match (if jsTruthy qa then setupRefreshAt self1 dayStart now qa
         else Except.ok (self1, true)) with
  | Except.error e => Except.error e
  | Except.ok r =>
    let self2 := r.1
    let self3 := if !jsTruthy qe && !jsTruthy qa then pushMsg self2 noRefreshMsg else self2
    Except.ok self3

/-- `cancel()` from the source, lines 123-132: clear each timer handle that
is still set (`clearTimeout` never throws). -/
def cancel (self : PageRefresh) : PageRefresh :=
  let self1 :=
    if self.refreshEveryTimeout.isSome then { self with refreshEveryTimeout := none } else self
  if self1.refreshAtTimeout.isSome then { self1 with refreshAtTimeout := none } else self1

/-- `getConfig()` from the source. -/
def getConfig (self : PageRefresh) : Config :=
  self.config

/-- The contribution of one `setupRefreshEvery` run: the `config.refreshEvery`
value it stores, the timer it arms, the messages it pushes, its return value. -/
structure EveryEffect where
  field : Option Int
  timer : Option JSNum
  msgs : List String
  ok : Bool
deriving DecidableEq, Repr

/-- The contribution of one `setupRefreshAt` run. -/
structure AtEffect where
  field : Option RefreshAtInfo
  timer : Option JSNum
  msgs : List String
  ok : Bool
deriving DecidableEq, Repr

/-- Characterisation of `setupRefreshEvery` on a value, independent of the
incoming state (proved equivalent in `setupRefreshEvery_fresh`). -/
def everyCore (v : JSVal) : EveryEffect :=
  match parseIntJS (jsToStringNum v) with
  | none => ⟨none, none, [invalidEveryMsg], false⟩
  | some seconds =>
    if seconds ≤ 0 then ⟨none, none, [invalidEveryMsg], false⟩
    else ⟨some seconds, some (some (seconds * 1000)), [confirmEveryMsg seconds], true⟩

/-- Characterisation of `setupRefreshAt` on a string, independent of the
incoming state (proved equivalent in `setupRefreshAt_fresh`). -/
def atCore (s : String) (dayStart now : Int) : AtEffect :=
  if s.length ≠ 4 then ⟨none, none, [invalidAtMsg], false⟩
  else
    let hours := parseIntJS (jsSubstring s 0 2)
    let minutes := parseIntJS (jsSubstring s 2 4)
    if jsLtInt hours 0 || jsGeInt hours 24 || jsLtInt minutes 0 || jsGeInt minutes 60 then
      ⟨none, none, [invalidAtMsg], false⟩
    else
      let targetTime0 := jsSetHours dayStart hours minutes
      let targetTime :=
        if jsLe targetTime0 (some now) then jsAdd targetTime0 (some 86400000) else targetTime0
      ⟨some ⟨hours, minutes, targetTime⟩, some (jsSub targetTime (some now)),
       [confirmAtMsg hours minutes], true⟩

/-- Net effect of the `refresh_every` directive inside `init`, including the
truthiness guard. -/
def everyEffect (qe : JSVal) : EveryEffect :=
  if jsTruthy qe then everyCore qe else ⟨none, none, [], false⟩

/-- Net effect of the `refresh_at` directive inside `init`, including the
truthiness guard. -/
def atEffect (qa : JSVal) (dayStart now : Int) : AtEffect :=
  match qa with
  | none => ⟨none, none, [], false⟩
  | some s => if s.isEmpty then ⟨none, none, [], false⟩ else atCore s dayStart now

theorem setupRefreshEvery_fresh (self : PageRefresh) (v : JSVal)
    (h1 : self.refreshEveryTimeout = none) (h2 : self.config.refreshEvery = none) :
    setupRefreshEvery self v =
      (⟨(everyCore v).timer, self.refreshAtTimeout,
        ⟨(everyCore v).field, self.config.refreshAt,
         self.config.statusMessages ++ (everyCore v).msgs⟩⟩, (everyCore v).ok) := by
  obtain ⟨t1, t2, f1, f2, ms⟩ := self
  simp only at h1 h2
  subst h1 h2
  unfold setupRefreshEvery everyCore
  cases parseIntJS (jsToStringNum v) with
  | none => simp [pushMsg]
  | some seconds =>
    by_cases h : seconds ≤ 0 <;> simp [h, pushMsg]

theorem setupRefreshAt_fresh (self : PageRefresh) (dayStart now : Int) (s : String)
    (h1 : self.refreshAtTimeout = none) (h2 : self.config.refreshAt = none) :
    setupRefreshAt self dayStart now (some s) =
      Except.ok (⟨self.refreshEveryTimeout, (atCore s dayStart now).timer,
        ⟨self.config.refreshEvery, (atCore s dayStart now).field,
         self.config.statusMessages ++ (atCore s dayStart now).msgs⟩⟩,
        (atCore s dayStart now).ok) := by
  obtain ⟨t1, t2, f1, f2, ms⟩ := self
  simp only at h1 h2
  subst h1 h2
  unfold setupRefreshAt atCore jsMethodToString
  by_cases hl : s.length ≠ 4
  · simp [hl, pushMsg]
  · simp only [hl, if_false, if_true]
    by_cases hr : (jsLtInt (parseIntJS (jsSubstring s 0 2)) 0 ||
        jsGeInt (parseIntJS (jsSubstring s 0 2)) 24 ||
        jsLtInt (parseIntJS (jsSubstring s 2 4)) 0 ||
        jsGeInt (parseIntJS (jsSubstring s 2 4)) 60) = true
    · simp [hr, pushMsg]
    · simp [hr, pushMsg]

theorem init_decomp (qe qa : JSVal) (dayStart now : Int) :
    init newPageRefresh qe qa dayStart now = Except.ok
      ⟨(everyEffect qe).timer, (atEffect qa dayStart now).timer,
       ⟨(everyEffect qe).field, (atEffect qa dayStart now).field,
        (everyEffect qe).msgs ++ (atEffect qa dayStart now).msgs ++
          (if !jsTruthy qe && !jsTruthy qa then [noRefreshMsg] else [])⟩⟩ := by
  have he : (if jsTruthy qe then (setupRefreshEvery newPageRefresh qe).1 else newPageRefresh) =
      ⟨(everyEffect qe).timer, none, ⟨(everyEffect qe).field, none, (everyEffect qe).msgs⟩⟩ := by
    by_cases h : jsTruthy qe
    · simp only [everyEffect, h, if_true]
      rw [setupRefreshEvery_fresh newPageRefresh qe rfl rfl]
      rfl
    · simp only [everyEffect, h, Bool.false_eq_true, if_false]
      rfl
  unfold init
  simp only [he]
  by_cases hq : jsTruthy qa
  · obtain ⟨s, rfl⟩ : ∃ s, qa = some s := by
      cases qa with
      | none => exact absurd hq (by simp [jsTruthy])
      | some s => exact ⟨s, rfl⟩
    have hs : s.isEmpty = false := by
      simpa [jsTruthy] using hq
    have ha : atEffect (some s) dayStart now = atCore s dayStart now := by
      simp [atEffect, hs]
    rw [if_pos hq, setupRefreshAt_fresh _ dayStart now s rfl rfl]
    simp [hq, ha]
  · have ha : atEffect qa dayStart now = ⟨none, none, [], false⟩ := by
      cases qa with
      | none => rfl
      | some s =>
        have hs : s.isEmpty = true := by
          by_contra hc
          exact hq (by simp [jsTruthy, hc])
        simp [atEffect, hs]
    rw [if_neg hq]
    by_cases hp : jsTruthy qe <;> simp [hp, hq, ha, pushMsg]

theorem cancel_eq (pr : PageRefresh) : cancel pr = ⟨none, none, pr.config⟩ := by
  obtain ⟨t1, t2, cfg⟩ := pr
  unfold cancel
  cases t1 <;> cases t2 <;> rfl

theorem confirmEveryMsg_ne (v : Int) : confirmEveryMsg v ≠ noRefreshMsg := by
  intro h
  have hh := congrArg (fun s => s.data.head?) h
  simp only [confirmEveryMsg, noRefreshMsg, String.data_append, List.head?_append] at hh
  simp at hh

theorem confirmAtMsg_ne (h m : JSNum) : confirmAtMsg h m ≠ noRefreshMsg := by
  intro he
  have hh := congrArg (fun s => s.data.head?) he
  simp only [confirmAtMsg, noRefreshMsg, String.data_append, List.head?_append] at hh
  simp at hh

theorem noRefresh_not_mem_every (qe : JSVal) : noRefreshMsg ∉ (everyEffect qe).msgs := by
  unfold everyEffect everyCore
  by_cases h : jsTruthy qe
  · simp only [h, if_true]
    cases parseIntJS (jsToStringNum qe) with
    | none =>
      simp only [List.mem_singleton]
      decide
    | some s =>
      by_cases hs : s ≤ 0
      · simp only [hs, if_true, List.mem_singleton]
        decide
      · simp only [hs, if_false, List.mem_singleton]
        exact fun he => confirmEveryMsg_ne s he.symm
  · simp [h]

theorem everyCore_nan (v : JSVal) (hp : parseIntJS (jsToStringNum v) = none) :
    everyCore v = ⟨none, none, [invalidEveryMsg], false⟩ := by
  unfold everyCore
  rw [hp]

theorem everyCore_nonpos (v : JSVal) (s : Int) (hp : parseIntJS (jsToStringNum v) = some s)
    (hs : s ≤ 0) : everyCore v = ⟨none, none, [invalidEveryMsg], false⟩ := by
  unfold everyCore
  rw [hp]
  exact if_pos hs

theorem everyCore_pos (v : JSVal) (s : Int) (hp : parseIntJS (jsToStringNum v) = some s)
    (hs : 0 < s) :
    everyCore v = ⟨some s, some (some (s * 1000)), [confirmEveryMsg s], true⟩ := by
  unfold everyCore
  rw [hp]
  exact if_neg (by omega)

/-- The range test of `setupRefreshAt` as one boolean (false on NaN operands). -/
def atRangeBad (s : String) : Bool :=
  jsLtInt (parseIntJS (jsSubstring s 0 2)) 0 || jsGeInt (parseIntJS (jsSubstring s 0 2)) 24 ||
  jsLtInt (parseIntJS (jsSubstring s 2 4)) 0 || jsGeInt (parseIntJS (jsSubstring s 2 4)) 60

/-- The target timestamp computed by `setupRefreshAt` on the success branch. -/
def atTarget (s : String) (dayStart now : Int) : JSNum :=
  if jsLe (jsSetHours dayStart (parseIntJS (jsSubstring s 0 2)) (parseIntJS (jsSubstring s 2 4)))
      (some now) then
    jsAdd (jsSetHours dayStart (parseIntJS (jsSubstring s 0 2)) (parseIntJS (jsSubstring s 2 4)))
      (some 86400000)
  else jsSetHours dayStart (parseIntJS (jsSubstring s 0 2)) (parseIntJS (jsSubstring s 2 4))

theorem atCore_badlen (s : String) (dayStart now : Int) (hl : s.length ≠ 4) :
    atCore s dayStart now = ⟨none, none, [invalidAtMsg], false⟩ := by
  unfold atCore
  exact if_pos hl

theorem atCore_badrange (s : String) (dayStart now : Int) (hl : s.length = 4)
    (hr : atRangeBad s = true) :
    atCore s dayStart now = ⟨none, none, [invalidAtMsg], false⟩ := by
  unfold atCore
  rw [if_neg (by simp [hl])]
  unfold atRangeBad at hr
  simp only [hr, if_true]

theorem atCore_good (s : String) (dayStart now : Int) (hl : s.length = 4)
    (hr : atRangeBad s = false) :
    atCore s dayStart now =
      ⟨some ⟨parseIntJS (jsSubstring s 0 2), parseIntJS (jsSubstring s 2 4),
             atTarget s dayStart now⟩,
       some (jsSub (atTarget s dayStart now) (some now)),
       [confirmAtMsg (parseIntJS (jsSubstring s 0 2)) (parseIntJS (jsSubstring s 2 4))],
       true⟩ := by
  unfold atCore atTarget
  rw [if_neg (by simp [hl])]
  unfold atRangeBad at hr
  simp only [hr, Bool.false_eq_true, if_false]

theorem noRefresh_not_mem_at (qa : JSVal) (dayStart now : Int) :
    noRefreshMsg ∉ (atEffect qa dayStart now).msgs := by
  unfold atEffect
  cases qa with
  | none => simp
  | some s =>
    by_cases hs : s.isEmpty
    · simp [hs]
    · simp only [hs, Bool.false_eq_true, if_false]
      by_cases hl : s.length = 4
      · by_cases hr : atRangeBad s = true
        · rw [atCore_badrange s dayStart now hl hr]
          intro he
          rw [List.mem_singleton] at he
          revert he
          decide
        · rw [atCore_good s dayStart now hl (by revert hr; cases atRangeBad s <;> simp)]
          intro he
          rw [List.mem_singleton] at he
          exact confirmAtMsg_ne _ _ he.symm
      · rw [atCore_badlen s dayStart now hl]
        intro he
        rw [List.mem_singleton] at he
        revert he
        decide

theorem everyEffect_field_pos (qe : JSVal) (n : Int)
    (h : (everyEffect qe).field = some n) : 0 < n := by
  unfold everyEffect at h
  by_cases ht : jsTruthy qe
  · rw [if_pos ht] at h
    rcases hp : parseIntJS (jsToStringNum qe) with _ | s
    · rw [everyCore_nan qe hp] at h
      simp at h
    · by_cases hs : s ≤ 0
      · rw [everyCore_nonpos qe s hp hs] at h
        simp at h
      · rw [everyCore_pos qe s hp (by omega)] at h
        simp only [Option.some.injEq] at h
        omega
  · rw [if_neg ht] at h
    simp at h

theorem everyEffect_msgs_ne (qe : JSVal) (h : jsTruthy qe = true) :
    (everyEffect qe).msgs ≠ [] := by
  unfold everyEffect
  rw [if_pos h]
  rcases hp : parseIntJS (jsToStringNum qe) with _ | s
  · rw [everyCore_nan qe hp]
    simp
  · by_cases hs : s ≤ 0
    · rw [everyCore_nonpos qe s hp hs]
      simp
    · rw [everyCore_pos qe s hp (by omega)]
      simp

theorem atEffect_msgs_ne (qa : JSVal) (dayStart now : Int) (h : jsTruthy qa = true) :
    (atEffect qa dayStart now).msgs ≠ [] := by
  unfold atEffect
  cases qa with
  | none => simp [jsTruthy] at h
  | some s =>
    have hs : s.isEmpty = false := by simpa [jsTruthy] using h
    simp only [hs, Bool.false_eq_true, if_false]
    by_cases hl : s.length = 4
    · by_cases hr : atRangeBad s = true
      · rw [atCore_badrange s dayStart now hl hr]
        simp
      · rw [atCore_good s dayStart now hl (by revert hr; cases atRangeBad s <;> simp)]
        simp
    · rw [atCore_badlen s dayStart now hl]
      simp

theorem everyEffect_ok_timer (qe : JSVal) (h : (everyEffect qe).ok = true) :
    (everyEffect qe).timer.isSome = true := by
  unfold everyEffect at h ⊢
  by_cases ht : jsTruthy qe
  · rw [if_pos ht] at h ⊢
    rcases hp : parseIntJS (jsToStringNum qe) with _ | s
    · rw [everyCore_nan qe hp] at h
      simp at h
    · by_cases hs : s ≤ 0
      · rw [everyCore_nonpos qe s hp hs] at h
        simp at h
      · rw [everyCore_pos qe s hp (by omega)]
        simp
  · rw [if_neg ht] at h
    simp at h

theorem atEffect_ok_timer (qa : JSVal) (dayStart now : Int)
    (h : (atEffect qa dayStart now).ok = true) :
    (atEffect qa dayStart now).timer.isSome = true := by
  unfold atEffect at h ⊢
  cases qa with
  | none => simp at h
  | some s =>
    by_cases hs : s.isEmpty
    · simp [hs] at h
    · simp only [hs, Bool.false_eq_true, if_false] at h ⊢
      by_cases hl : s.length = 4
      · by_cases hr : atRangeBad s = true
        · rw [atCore_badrange s dayStart now hl hr] at h
          simp at h
        · rw [atCore_good s dayStart now hl (by revert hr; cases atRangeBad s <;> simp)]
          simp
      · rw [atCore_badlen s dayStart now hl] at h
        simp at h

theorem everyEffect_falsy (qe : JSVal) (h : jsTruthy qe = false) :
    everyEffect qe = ⟨none, none, [], false⟩ := by
  unfold everyEffect
  rw [h]
  simp

theorem atEffect_falsy (qa : JSVal) (dayStart now : Int) (h : jsTruthy qa = false) :
    atEffect qa dayStart now = ⟨none, none, [], false⟩ := by
  unfold atEffect
  cases qa with
  | none => rfl
  | some s =>
    have hs : s.isEmpty = true := by simpa [jsTruthy] using h
    simp [hs]

theorem init_fields (qe qa : JSVal) (dayStart now : Int) (pr : PageRefresh)
    (hrun : init newPageRefresh qe qa dayStart now = Except.ok pr) :
    pr.refreshEveryTimeout = (everyEffect qe).timer ∧
    pr.refreshAtTimeout = (atEffect qa dayStart now).timer ∧
    pr.config.refreshEvery = (everyEffect qe).field ∧
    pr.config.refreshAt = (atEffect qa dayStart now).field ∧
    pr.config.statusMessages =
      (everyEffect qe).msgs ++ (atEffect qa dayStart now).msgs ++
        (if !jsTruthy qe && !jsTruthy qa then [noRefreshMsg] else []) := by
  rw [init_decomp] at hrun
  injection hrun with h
  subst h
  exact ⟨rfl, rfl, rfl, rfl, rfl⟩

/-- Claim C1 (evaluation at the failing input): the claim says every
malformed `refresh_at` value is rejected with an invalid-input message and
no timer; but on the malformed 4-character value "ab30" the parsed hour is
NaN, every NaN comparison in the range check is false, so `setupRefreshAt`
accepts it: it arms a timer (with NaN delay), stores a non-null
`config.refreshAt` containing NaN fields, returns success, and pushes a
confirming "refresh at NaN:30:00" message instead of the invalid-input one. -/
theorem claim_C1_nan_accepted :
    setupRefreshAt newPageRefresh 0 36000000 (some "ab30") =
      Except.ok
        ({ refreshEveryTimeout := none
           refreshAtTimeout := some none
           config :=
             { refreshEvery := none
               refreshAt := some { hours := none, minutes := some 30, targetTime := none }
               statusMessages := ["Auto-refresh enabled: Page will refresh at NaN:30:00"] } },
         true) ∧
    "Auto-refresh enabled: Page will refresh at NaN:30:00" ≠ invalidAtMsg :=
  ⟨rfl, by decide⟩

/-- Claim C6: `init` (including both setup paths) runs to completion without
raising an exception on every input: the result is always `Except.ok`.  The
only throw-capable operation in the module, the `toString()` method call on
the possibly-null `refresh_at` value, is protected by `init`'s truthiness
guard; every parse failure only appends to `statusMessages`. -/
theorem claim_C6_no_exception (qe qa : JSVal) (dayStart now : Int) :
    ∃ pr : PageRefresh, init newPageRefresh qe qa dayStart now = Except.ok pr :=
  ⟨_, init_decomp qe qa dayStart now⟩

/-- Claim C8: `cancel` is idempotent: a second call changes nothing, calling
it with no timers armed is a no-op (never errors — it is a total function),
and after any call both timer handles are cleared. -/
theorem claim_C8_cancel_idem (pr : PageRefresh) :
    cancel (cancel pr) = cancel pr ∧
    (pr.refreshEveryTimeout = none → pr.refreshAtTimeout = none → cancel pr = pr) ∧
    (cancel pr).refreshEveryTimeout = none ∧ (cancel pr).refreshAtTimeout = none := by
  refine ⟨?_, ?_, ?_, ?_⟩
  · rw [cancel_eq, cancel_eq]
  · intro h1 h2
    rw [cancel_eq]
    obtain ⟨t1, t2, cfg⟩ := pr
    simp only at h1 h2
    rw [h1, h2]
  · rw [cancel_eq]
  · rw [cancel_eq]

/-- Witness for C8 at a concrete state with no timers armed. -/
theorem claim_C8_witness :
    cancel (cancel newPageRefresh) = cancel newPageRefresh ∧
    cancel newPageRefresh = newPageRefresh :=
  ⟨(claim_C8_cancel_idem newPageRefresh).1,
   (claim_C8_cancel_idem newPageRefresh).2.1 rfl rfl⟩

/-- Claim C9: `cancel` only touches the two timer handles: the whole
`config` object — `statusMessages`, `refreshEvery` and `refreshAt` — is left
exactly as it was. -/
theorem claim_C9_cancel_frame (pr : PageRefresh) :
    (cancel pr).config = pr.config ∧
    (cancel pr).config.statusMessages = pr.config.statusMessages ∧
    (cancel pr).config.refreshEvery = pr.config.refreshEvery ∧
    (cancel pr).config.refreshAt = pr.config.refreshAt := by
  rw [cancel_eq]
  exact ⟨rfl, rfl, rfl, rfl⟩

/-- Counterexample to C2 as stated: the value `""` is present (non-null) and
non-numeric (`parseInt` gives NaN), yet no invalid-input message is appended
— the truthiness guard in `init` treats the empty string as absent, so the
only message is the "no auto-refresh" one. -/
theorem claim_C2_counterexample :
    parseIntJS "" = none ∧
    (some "" : JSVal) ≠ none ∧
    init newPageRefresh (some "") none 0 0 =
      Except.ok ⟨none, none, ⟨none, none, [noRefreshMsg]⟩⟩ ∧
    noRefreshMsg ≠ invalidEveryMsg :=
  ⟨rfl, by simp, rfl, by decide⟩

/-- Counterexample to C3 as stated: with `refresh_at` present in the query
string but with an empty value, `init` still appends the "no auto-refresh"
message — presence alone does not suppress it, falsiness does. -/
theorem claim_C3_counterexample :
    (some "" : JSVal) ≠ none ∧
    init newPageRefresh none (some "") 0 0 =
      Except.ok ⟨none, none, ⟨none, none, [noRefreshMsg]⟩⟩ :=
  ⟨by simp, rfl⟩

/-- Claim C2 (amended): for every `refresh_every` value present with a
non-empty string on which `parseInt` fails or yields an integer ≤ 0, `init`
arms no interval timer, `config.refreshEvery` stays null, and the
invalid-input message is appended; and whenever `config.refreshEvery` is set
after `init`, it is a positive integer.  Amended from the original claim
only in requiring the value to be non-empty: a parameter present with an
empty value is falsy, the setup function never runs, and no invalid-input
message is recorded (see the counterexample). -/
theorem claim_C2_invalid_every :
    (∀ (s : String) (qa : JSVal) (dayStart now : Int) (pr : PageRefresh),
      s.isEmpty = false →
      (∀ v : Int, parseIntJS s = some v → v ≤ 0) →
      init newPageRefresh (some s) qa dayStart now = Except.ok pr →
      pr.refreshEveryTimeout = none ∧ pr.config.refreshEvery = none ∧
        invalidEveryMsg ∈ pr.config.statusMessages) ∧
    (∀ (qe qa : JSVal) (dayStart now : Int) (pr : PageRefresh) (v : Int),
      init newPageRefresh qe qa dayStart now = Except.ok pr →
      pr.config.refreshEvery = some v → 0 < v) := by
  constructor
  · intro s qa dayStart now pr hs hbad hrun
    obtain ⟨he, _, hf, _, hmsgs⟩ := init_fields _ _ _ _ _ hrun
    have htruthy : jsTruthy (some s) = true := by simp [jsTruthy, hs]
    have hef : everyEffect (some s) = ⟨none, none, [invalidEveryMsg], false⟩ := by
      unfold everyEffect
      rw [if_pos htruthy]
      rcases hp : parseIntJS s with _ | v
      · exact everyCore_nan (some s) (by simpa [jsToStringNum] using hp)
      · exact everyCore_nonpos (some s) v (by simpa [jsToStringNum] using hp) (hbad v hp)
    refine ⟨?_, ?_, ?_⟩
    · rw [he, hef]
    · rw [hf, hef]
    · rw [hmsgs, hef]
      simp
  · intro qe qa dayStart now pr v hrun hv
    obtain ⟨_, _, hf, _, _⟩ := init_fields _ _ _ _ _ hrun
    exact everyEffect_field_pos qe v (by rw [← hf]; exact hv)

/-- Witness for C2 at the concrete non-numeric value "abc". -/
theorem claim_C2_witness :
    "abc".isEmpty = false ∧
    ∃ pr, init newPageRefresh (some "abc") none 0 0 = Except.ok pr ∧
      pr.refreshEveryTimeout = none ∧ pr.config.refreshEvery = none ∧
      invalidEveryMsg ∈ pr.config.statusMessages := by
  obtain ⟨pr, hpr⟩ : ∃ pr, init newPageRefresh (some "abc") none 0 0 = Except.ok pr :=
    ⟨_, init_decomp _ _ _ _⟩
  have h := claim_C2_invalid_every.1 "abc" none 0 0 pr rfl
    (fun v hv => by rw [show parseIntJS "abc" = none from rfl] at hv; exact Option.noConfusion hv)
    hpr
  exact ⟨rfl, pr, hpr, h⟩

/-- Claim C3 (amended): after `init`, the "no auto-refresh" message is among
the status messages exactly when neither parameter carries a truthy
(non-null, non-empty) value; and in that case `statusMessages` is exactly
that single message and both `config.refreshEvery` and `config.refreshAt`
stay null.  Amended from the original claim only in reading "present" as
"present with a non-empty value": a parameter present with an empty value is
falsy and treated as absent (see the counterexample). -/
theorem claim_C3_no_refresh (qe qa : JSVal) (dayStart now : Int) (pr : PageRefresh)
    (hrun : init newPageRefresh qe qa dayStart now = Except.ok pr) :
    (noRefreshMsg ∈ pr.config.statusMessages ↔
      (jsTruthy qe = false ∧ jsTruthy qa = false)) ∧
    ((jsTruthy qe = false ∧ jsTruthy qa = false) →
      pr.config.statusMessages = [noRefreshMsg] ∧
      pr.config.refreshEvery = none ∧ pr.config.refreshAt = none) := by
  obtain ⟨_, _, hf, hg, hmsgs⟩ := init_fields _ _ _ _ _ hrun
  by_cases hqe : jsTruthy qe = true
  · have hguard : (if !jsTruthy qe && !jsTruthy qa then [noRefreshMsg] else []) = [] := by
      simp [hqe]
    rw [hguard, List.append_nil] at hmsgs
    constructor
    · constructor
      · intro hmem
        rw [hmsgs] at hmem
        rcases List.mem_append.mp hmem with hm | hm
        · exact absurd hm (noRefresh_not_mem_every qe)
        · exact absurd hm (noRefresh_not_mem_at qa dayStart now)
      · rintro ⟨h1, _⟩
        rw [h1] at hqe
        exact absurd hqe (by simp)
    · rintro ⟨h1, _⟩
      rw [h1] at hqe
      exact absurd hqe (by simp)
  · have hqe' : jsTruthy qe = false := by
      revert hqe
      cases jsTruthy qe <;> simp
    by_cases hqa : jsTruthy qa = true
    · have hguard : (if !jsTruthy qe && !jsTruthy qa then [noRefreshMsg] else []) = [] := by
        simp [hqa]
      rw [hguard, List.append_nil] at hmsgs
      constructor
      · constructor
        · intro hmem
          rw [hmsgs] at hmem
          rcases List.mem_append.mp hmem with hm | hm
          · exact absurd hm (noRefresh_not_mem_every qe)
          · exact absurd hm (noRefresh_not_mem_at qa dayStart now)
        · rintro ⟨_, h2⟩
          rw [h2] at hqa
          exact absurd hqa (by simp)
      · rintro ⟨_, h2⟩
        rw [h2] at hqa
        exact absurd hqa (by simp)
    · have hqa' : jsTruthy qa = false := by
        revert hqa
        cases jsTruthy qa <;> simp
      have hguard : (if !jsTruthy qe && !jsTruthy qa then [noRefreshMsg] else []) =
          [noRefreshMsg] := by
        simp [hqe', hqa']
      rw [hguard, everyEffect_falsy qe hqe', atEffect_falsy qa dayStart now hqa'] at hmsgs
      simp only [List.nil_append] at hmsgs
      refine ⟨?_, fun _ => ⟨hmsgs, ?_, ?_⟩⟩
      · rw [hmsgs]
        simp [hqe', hqa']
      · rw [hf, everyEffect_falsy qe hqe']
      · rw [hg, atEffect_falsy qa dayStart now hqa']

/-- Witness for C3 with both parameters absent. -/
theorem claim_C3_witness :
    ∃ pr, init newPageRefresh none none 0 0 = Except.ok pr ∧
      (noRefreshMsg ∈ pr.config.statusMessages ↔
        (jsTruthy (none : JSVal) = false ∧ jsTruthy (none : JSVal) = false)) ∧
      pr.config.statusMessages = [noRefreshMsg] ∧
      pr.config.refreshEvery = none ∧ pr.config.refreshAt = none := by
  obtain ⟨pr, hpr⟩ : ∃ pr, init newPageRefresh none none 0 0 = Except.ok pr :=
    ⟨_, init_decomp _ _ _ _⟩
  have h := claim_C3_no_refresh none none 0 0 pr hpr
  exact ⟨pr, hpr, h.1, h.2 ⟨rfl, rfl⟩⟩

theorem setupRefreshAt_good (self : PageRefresh) (dayStart now : Int) (s : String)
    (hl : s.length = 4) (hr : atRangeBad s = false) :
    setupRefreshAt self dayStart now (some s) = Except.ok
      ({ self with
          refreshAtTimeout := some (jsSub (atTarget s dayStart now) (some now))
          config := { self.config with
            refreshAt := some ⟨parseIntJS (jsSubstring s 0 2), parseIntJS (jsSubstring s 2 4),
                               atTarget s dayStart now⟩
            statusMessages := self.config.statusMessages ++
              [confirmAtMsg (parseIntJS (jsSubstring s 0 2)) (parseIntJS (jsSubstring s 2 4))] } },
       true) := by
  have hl2 : ¬ (s.length ≠ 4) := by simp [hl]
  unfold setupRefreshAt
  simp only [jsMethodToString]
  rw [if_neg hl2]
  unfold atRangeBad at hr
  simp only [hr, Bool.false_eq_true, if_false, pushMsg]
  rfl

/-- Claim C4: for every valid hhmm input (a 4-character value whose halves
parse to `h ∈ [0,23]` and `m ∈ [0,59]`), the computed target timestamp is
strictly after the current instant: it is today at h:m:00.000 when that
instant is still strictly in the future, and tomorrow at the same h:m when
it has already passed or equals the current instant exactly. -/
theorem claim_C4_target (s : String) (h m dayStart msOfDay : Int)
    (self pr : PageRefresh) (b : Bool)
    (hlen : s.length = 4)
    (hh : parseIntJS (jsSubstring s 0 2) = some h)
    (hm : parseIntJS (jsSubstring s 2 4) = some m)
    (hh0 : 0 ≤ h) (hh24 : h < 24) (hm0 : 0 ≤ m) (hm60 : m < 60)
    (hms0 : 0 ≤ msOfDay) (hms : msOfDay < 86400000)
    (hrun : setupRefreshAt self dayStart (dayStart + msOfDay) (some s) = Except.ok (pr, b)) :
    ∃ target : Int,
      pr.config.refreshAt = some ⟨some h, some m, some target⟩ ∧
      pr.refreshAtTimeout = some (some (target - (dayStart + msOfDay))) ∧
      b = true ∧
      dayStart + msOfDay < target ∧
      (dayStart + msOfDay < dayStart + h * 3600000 + m * 60000 →
        target = dayStart + h * 3600000 + m * 60000) ∧
      (dayStart + h * 3600000 + m * 60000 ≤ dayStart + msOfDay →
        target = dayStart + h * 3600000 + m * 60000 + 86400000) := by
  have hrb : atRangeBad s = false := by
    unfold atRangeBad
    rw [hh, hm]
    simp only [jsLtInt, jsGeInt, Bool.or_eq_false_iff, decide_eq_false_iff_not, not_lt, not_le]
    omega
  rw [setupRefreshAt_good self dayStart (dayStart + msOfDay) s hlen hrb] at hrun
  injection hrun with hpair
  injection hpair with hp1 hp2
  subst hp1
  subst hp2
  by_cases hc : dayStart + h * 3600000 + m * 60000 ≤ dayStart + msOfDay
  · have hT : atTarget s dayStart (dayStart + msOfDay) =
        some (dayStart + h * 3600000 + m * 60000 + 86400000) := by
      unfold atTarget
      rw [hh, hm]
      simp only [jsSetHours, jsLe, jsAdd]
      rw [if_pos (by simpa using hc)]
    refine ⟨dayStart + h * 3600000 + m * 60000 + 86400000, ?_, ?_, rfl, ?_, ?_, fun _ => rfl⟩
    · simp only [hT, hh, hm]
    · simp only [hT, jsSub]
    · omega
    · intro hlt
      omega
  · have hT : atTarget s dayStart (dayStart + msOfDay) =
        some (dayStart + h * 3600000 + m * 60000) := by
      unfold atTarget
      rw [hh, hm]
      simp only [jsSetHours, jsLe, jsAdd]
      rw [if_neg (by simpa using hc)]
    refine ⟨dayStart + h * 3600000 + m * 60000, ?_, ?_, rfl, ?_, fun _ => rfl, ?_⟩
    · simp only [hT, hh, hm]
    · simp only [hT, jsSub]
    · omega
    · intro hle
      omega

/-- Witness for C4 at "1430" with the clock at 10:00 (scenario B: today) —
the hypotheses hold and the target lands strictly after now. -/
theorem claim_C4_witness :
    ∃ pr b target,
      setupRefreshAt newPageRefresh 0 36000000 (some "1430") = Except.ok (pr, b) ∧
      pr.config.refreshAt = some ⟨some 14, some 30, some target⟩ ∧
      (0 : Int) + 36000000 < target ∧ b = true := by
  obtain ⟨pr, b, hpr⟩ :
      ∃ pr b, setupRefreshAt newPageRefresh 0 36000000 (some "1430") = Except.ok (pr, b) :=
    ⟨_, _, setupRefreshAt_good newPageRefresh 0 36000000 "1430" rfl rfl⟩
  obtain ⟨target, h1, _, hb, h4, _, _⟩ :=
    claim_C4_target "1430" 14 30 0 36000000 newPageRefresh pr b rfl rfl rfl
      (by decide) (by decide) (by decide) (by decide) (by decide) (by decide) hpr
  exact ⟨pr, b, target, hpr, h1, h4, hb⟩

/-- Claim C5: for every positive integer N supplied (as any string that
`parseInt` reads as N), `setupRefreshEvery` stores N in
`config.refreshEvery`, arms a one-shot timer with delay exactly N × 1000
milliseconds, returns success, and appends a confirming status message
containing N. -/
theorem claim_C5_every (N : Int) (s : String) (self : PageRefresh)
    (hpos : 0 < N) (hp : parseIntJS s = some N) :
    setupRefreshEvery self (some s) =
      ({ self with
          refreshEveryTimeout := some (some (N * 1000))
          config := { self.config with
            refreshEvery := some N
            statusMessages := self.config.statusMessages ++ [confirmEveryMsg N] } }, true) ∧
    ∃ pre post, confirmEveryMsg N = pre ++ toString N ++ post := by
  constructor
  · unfold setupRefreshEvery
    simp only [show jsToStringNum (some s) = s from rfl, hp]
    rw [if_neg (by omega)]
    simp [pushMsg]
  · exact ⟨"Auto-refresh enabled: Page will refresh every ", " seconds", rfl⟩

/-- Witness for C5 at N = 30 supplied as "30" (scenario A). -/
theorem claim_C5_witness :
    (0 : Int) < 30 ∧ parseIntJS "30" = some 30 ∧
    setupRefreshEvery newPageRefresh (some "30") =
      ({ newPageRefresh with
          refreshEveryTimeout := some (some (30 * 1000))
          config := { newPageRefresh.config with
            refreshEvery := some 30
            statusMessages := newPageRefresh.config.statusMessages ++ [confirmEveryMsg 30] } },
       true) :=
  ⟨by decide, by decide, (claim_C5_every 30 "30" newPageRefresh (by decide) (by decide)).1⟩

/-- Claim C7: the two directives are processed independently.  Run 1 and
run 2 share the `refresh_every` value but differ arbitrarily in
`refresh_at` (and in the clock): the stored `refreshEvery`, the interval
timer, and the messages contributed by `refresh_every` (the prefix
`(everyEffect qe).msgs`, a function of that value alone) are identical.
Symmetrically, run 1 and run 3 share the `refresh_at` value and the clock
while `refresh_every` differs: the stored `refreshAt`, the absolute timer,
and the messages contributed by `refresh_at` are identical.  And when both
directives are supplied and valid (their setups succeed), run 1 arms both
timers. -/
theorem claim_C7_independent (qe qe' qa qa' : JSVal) (d n d' n' : Int)
    (pr pr2 pr3 : PageRefresh)
    (h1 : init newPageRefresh qe qa d n = Except.ok pr)
    (h2 : init newPageRefresh qe qa' d' n' = Except.ok pr2)
    (h3 : init newPageRefresh qe' qa d n = Except.ok pr3) :
    (pr.config.refreshEvery = pr2.config.refreshEvery ∧
     pr.refreshEveryTimeout = pr2.refreshEveryTimeout ∧
     ∃ r r', pr.config.statusMessages = (everyEffect qe).msgs ++ r ∧
             pr2.config.statusMessages = (everyEffect qe).msgs ++ r') ∧
    (pr.config.refreshAt = pr3.config.refreshAt ∧
     pr.refreshAtTimeout = pr3.refreshAtTimeout ∧
     ∃ u u' w w', pr.config.statusMessages = u ++ (atEffect qa d n).msgs ++ u' ∧
                  pr3.config.statusMessages = w ++ (atEffect qa d n).msgs ++ w') ∧
    ((everyEffect qe).ok = true → (atEffect qa d n).ok = true →
      pr.refreshEveryTimeout.isSome = true ∧ pr.refreshAtTimeout.isSome = true) := by
  obtain ⟨e1, a1, f1, g1, m1⟩ := init_fields _ _ _ _ _ h1
  obtain ⟨e2, a2, f2, g2, m2⟩ := init_fields _ _ _ _ _ h2
  obtain ⟨e3, a3, f3, g3, m3⟩ := init_fields _ _ _ _ _ h3
  refine ⟨⟨?_, ?_, ?_⟩, ⟨?_, ?_, ?_⟩, ?_⟩
  · rw [f1, f2]
  · rw [e1, e2]
  · exact ⟨_, _, by rw [m1, List.append_assoc], by rw [m2, List.append_assoc]⟩
  · rw [g1, g3]
  · rw [a1, a3]
  · exact ⟨_, _, _, _, m1, m3⟩
  · intro hok1 hok2
    constructor
    · rw [e1]
      exact everyEffect_ok_timer qe hok1
    · rw [a1]
      exact atEffect_ok_timer qa d n hok2

/-- Witness for C7 (scenario F shaped): "60" with "1500" versus "60" with
invalid "abcd", and versus absent `refresh_every`; both timers armed in the
first run. -/
theorem claim_C7_witness :
    ∃ pr pr2 pr3,
      init newPageRefresh (some "60") (some "1500") 0 36000000 = Except.ok pr ∧
      init newPageRefresh (some "60") (some "abcd") 0 0 = Except.ok pr2 ∧
      init newPageRefresh none (some "1500") 0 36000000 = Except.ok pr3 ∧
      pr.config.refreshEvery = pr2.config.refreshEvery ∧
      pr.refreshEveryTimeout = pr2.refreshEveryTimeout ∧
      pr.config.refreshAt = pr3.config.refreshAt ∧
      pr.refreshAtTimeout = pr3.refreshAtTimeout ∧
      pr.refreshEveryTimeout.isSome = true ∧
      pr.refreshAtTimeout.isSome = true := by
  have h := claim_C7_independent (some "60") none (some "1500") (some "abcd")
    0 36000000 0 0 _ _ _ (init_decomp _ _ _ _) (init_decomp _ _ _ _) (init_decomp _ _ _ _)
  refine ⟨_, _, _, init_decomp _ _ _ _, init_decomp _ _ _ _, init_decomp _ _ _ _,
    h.1.1, h.1.2.1, h.2.1.1, h.2.1.2.1, ?_, ?_⟩
  · exact (h.2.2 (by decide) (by decide)).1
  · exact (h.2.2 (by decide) (by decide)).2

/-- Claim C10: after `init`, `statusMessages` is never empty — every run
appends at least one message — and the message list decomposes as the
messages produced for `refresh_every`, followed by the messages produced
for `refresh_at`, followed (only when both values are falsy) by the
"no auto-refresh" message: `init` processes `refresh_every` first, so every
`refresh_every` message precedes every `refresh_at` message. -/
theorem claim_C10_never_empty (qe qa : JSVal) (dayStart now : Int) (pr : PageRefresh)
    (hrun : init newPageRefresh qe qa dayStart now = Except.ok pr) :
    pr.config.statusMessages ≠ [] ∧
    pr.config.statusMessages =
      (everyEffect qe).msgs ++ (atEffect qa dayStart now).msgs ++
        (if !jsTruthy qe && !jsTruthy qa then [noRefreshMsg] else []) := by
  obtain ⟨_, _, _, _, hmsgs⟩ := init_fields _ _ _ _ _ hrun
  refine ⟨?_, hmsgs⟩
  rw [hmsgs]
  by_cases hqe : jsTruthy qe = true
  · intro hcontra
    rcases List.append_eq_nil.mp hcontra with ⟨hea, _⟩
    rcases List.append_eq_nil.mp hea with ⟨he, _⟩
    exact everyEffect_msgs_ne qe hqe he
  · by_cases hqa : jsTruthy qa = true
    · intro hcontra
      rcases List.append_eq_nil.mp hcontra with ⟨hea, _⟩
      rcases List.append_eq_nil.mp hea with ⟨_, ha⟩
      exact atEffect_msgs_ne qa dayStart now hqa ha
    · have hqe' : jsTruthy qe = false := by
        revert hqe
        cases jsTruthy qe <;> simp
      have hqa' : jsTruthy qa = false := by
        revert hqa
        cases jsTruthy qa <;> simp
      simp [hqe', hqa']

/-- Witness for C10 at scenario F: both directives valid, two messages in
order, list nonempty. -/
theorem claim_C10_witness :
    ∃ pr, init newPageRefresh (some "60") (some "1500") 0 36000000 = Except.ok pr ∧
      pr.config.statusMessages ≠ [] ∧
      pr.config.statusMessages =
        (everyEffect (some "60")).msgs ++ (atEffect (some "1500") 0 36000000).msgs ++ [] := by
  obtain ⟨pr, hpr⟩ :
      ∃ pr, init newPageRefresh (some "60") (some "1500") 0 36000000 = Except.ok pr :=
    ⟨_, init_decomp _ _ _ _⟩
  have h := claim_C10_never_empty (some "60") (some "1500") 0 36000000 pr hpr
  refine ⟨pr, hpr, h.1, ?_⟩
  rw [h.2]
  rfl
